import Mathlib

/-!
Shallow embedding of the validation pipeline in `src/File_Validation.py`
(repository aniketpatil-9232/Validation-App).

The program validates an uploaded delimited-text file against a fixed
five-column schema and data-quality rules, records every verdict through a
recorder, and returns an accepted / rejected / error response.  Byte streams
are modelled as a string together with a read position; the recorder is
modelled as the list of records inserted, in insertion order.  Pandas and the
Python standard library are modelled only to the extent the program exercises
them; each such definition carries a comment stating the modelled behaviour.
-/

/-- Allowed headers for validation (File_Validation.py line 19). -/
def ALLOWED_HEADERS : List String :=
  ["CUSTOMER", "ADDRESS", "PRODUCT", "PRODUCT_TYPE", "PRICE"]

/-- Index of the last character satisfying a predicate, if any
(model of Python str.rfind restricted to what os.path.splitext needs). -/
def rfindP : List Char → (Char → Bool) → Option Nat
  | [], _ => none
  | c :: cs, p =>
    match rfindP cs p with
    | some i => some (i + 1)
    | none => if p c then some 0 else none

/-- Model of os.path.splitext (ntpath/genericpath._splitext with sep a
backslash, altsep a slash and extsep a dot): split off the extension at the
last dot of the final path component, unless every character of the component
before that dot is itself a dot (leading dots never start an extension). -/
def splitext (pth : String) : String × String :=
  let cs := pth.data
  let start : Nat :=
    match rfindP cs (fun c => c = '\\' || c = '/') with
    | some s => s + 1
    | none => 0
  match rfindP cs (fun c => c = '.') with
  | some d =>
    if start ≤ d ∧ ((cs.drop start).take (d - start)).any (fun c => c ≠ '.') then
      (String.mk (cs.take d), String.mk (cs.drop d))
    else
      (pth, "")
  | none => (pth, "")

/-- Model of Python str.lower, which agrees with ASCII lowercasing on the
ASCII range the program compares (file extensions and declared types). -/
def strLower (s : String) : String :=
  String.mk (s.data.map Char.toLower)

/-- Membership in the regex character class [a-zA-Z0-9 ] of
File_Validation.py line 37 (literal ASCII ranges and the space). -/
def nameCharOk (c : Char) : Bool :=
  ('a' ≤ c && c ≤ 'z') || ('A' ≤ c && c ≤ 'Z') || ('0' ≤ c && c ≤ '9') || c = ' '

/-- Model of the $ anchor of Python re (no MULTILINE flag): it matches at the
end of the string, or just before a newline that is the last character. -/
def dollarAt (cs : List Char) (k : Nat) : Bool :=
  k = cs.length || (k + 1 = cs.length && cs.getLast? == some '\n')

/-- Model of re.match applied to the pattern of File_Validation.py line 37:
the engine greedily consumes characters of the class [a-zA-Z0-9 ] and
backtracks, so the match succeeds exactly when some k with 1 ≤ k ≤ (length of
the maximal class-only prefix) satisfies the $ anchor. -/
def reMatchNamePattern (cs : List Char) : Bool :=
  let p := (cs.takeWhile nameCharOk).length
  (List.range (p + 1)).any (fun k => decide (1 ≤ k) && dollarAt cs k)

/-- Validate file name (File_Validation.py lines 35-39). -/
def validate_file_name (file_name : String) : String :=
  let base_name := (splitext file_name).1
  if reMatchNamePattern base_name.data then
    "File name is valid. ✅"
  else
    "File name is invalid. ❌"

/-- A seekable binary stream: its full contents plus the current read
position (characters stand for bytes; the files the program handles are
ASCII-transparent). -/
structure ByteStream where
  content : String
  pos : Nat
deriving DecidableEq

/-- Validate file size (File_Validation.py lines 42-48): seek to the end,
read the position as the size, divide by 1024 (exact in the rationals, as it
is for the binary floats the program uses on any realisable size), rewind to
position 0, and compare against 10 KB. -/
def validate_file_size (uploaded_file : ByteStream) : String × ByteStream :=
  let atEnd : ByteStream := { uploaded_file with pos := uploaded_file.content.length }
  let file_size_kb : ℚ := (atEnd.pos : ℚ) / 1024
  let rewound : ByteStream := { atEnd with pos := 0 }
  if file_size_kb ≤ 10 then
    ("File size is valid. ✅", rewound)
  else
    ("File size must be under 10 KB. ❌", rewound)

deriving instance DecidableEq for Except

/-- A cell of a parsed table: either missing (pandas NaN) or a string value. -/
inductive Cell where
  | na : Cell
  | str : String → Cell
deriving DecidableEq

/-- A cell is null exactly when it is NA (pandas isnull). -/
def Cell.isNull : Cell → Bool
  | Cell.na => true
  | Cell.str _ => false

/-- A parsed table: ordered column names and rows of cells; every row has as
many cells as there are columns. -/
structure DataFrame where
  columns : List String
  rows : List (List Cell)
deriving DecidableEq

/-- Split a character list at every occurrence of a delimiter character. -/
def splitOnChar (d : Char) : List Char → List (List Char)
  | [] => [[]]
  | c :: cs =>
    let r := splitOnChar d cs
    if c = d then
      [] :: r
    else
      match r with
      | [] => [[c]]
      | h :: t => (c :: h) :: t

/-- An empty field becomes NA (pandas' default missing-value handling for
empty fields); any other field is kept as its literal string. -/
def toCell (cs : List Char) : Cell :=
  if cs = [] then Cell.na else Cell.str (String.mk cs)

/-- Lines of a file: split at newlines; a trailing newline does not
contribute a final empty line. -/
def splitLines (content : String) : List (List Char) :=
  let ls := splitOnChar '\n' content.data
  match ls.getLast? with
  | some [] => ls.dropLast
  | _ => ls

/-- Model of pandas.read_csv as the program uses it (single-character
delimiter, skip_blank_lines=False): the first line supplies the column names;
every later line is a row, blank lines included; empty fields become NA;
short rows are padded with NA; a row with more fields than the header is a
tokenizing error; an empty input is an error (pandas EmptyDataError and
ParserError are both ValueError subclasses).  Quoting, NA-token lists beyond
the empty field, dtype inference and index inference are not exercised by the
program on the inputs this development evaluates and are not modelled. -/
def pdReadCsv (delim : Char) (content : String) : Except String DataFrame :=
  match splitLines content with
  | [] => Except.error "No columns to parse from file"
  | header :: rest =>
    let cols := (splitOnChar delim header).map String.mk
    let n := cols.length
    if rest.any (fun line => n < (splitOnChar delim line).length) then
      Except.error "Error tokenizing data."
    else
      Except.ok
        { columns := cols,
          rows := rest.map (fun line =>
            let fs := (splitOnChar delim line).map toCell
            fs ++ List.replicate (n - fs.length) Cell.na) }

/-- Reading a stream with pandas.read_csv consumes it from the current
position to the end. -/
def pdReadCsvFrom (delim : Char) (s : ByteStream) : Except String (DataFrame × ByteStream) :=
  match pdReadCsv delim (String.mk (s.content.data.drop s.pos)) with
  | Except.ok df => Except.ok (df, { s with pos := s.content.length })
  | Except.error e => Except.error e

/-- Validate headers (File_Validation.py lines 51-54); the table is passed
through so that its state after the call is explicit. -/
def validate_headers (data : DataFrame) : String × DataFrame :=
  (if data.columns = ALLOWED_HEADERS then
    "Headers matched. ✅"
  else
    "Headers are not matching. ❌", data)

/-- Check for null values (File_Validation.py lines 57-60): the file fails
when any cell of any row is null. -/
def check_null_values (data : DataFrame) : String × DataFrame :=
  (if data.rows.any (fun row => row.any Cell.isNull) then
    "Uploaded file contains null values. ❌"
  else
    "Uploaded file does not contain null values. ✅", data)

/-- A cell that is NA or a whitespace-only string: pandas replace with the
regex of File_Validation.py line 64 turns whitespace-only strings into NA. -/
def blankToNa (c : Cell) : Cell :=
  match c with
  | Cell.na => Cell.na
  | Cell.str s => if s.data.all (fun ch => ch.isWhitespace || ch = '\x0b' || ch = '\x0c') then Cell.na else Cell.str s

/-- Model of DataFrame.dropna(how='all'): keep the rows that have at least
one non-null cell. -/
def dropAllNaRows (rows : List (List Cell)) : List (List Cell) :=
  rows.filter (fun r => !(r.all Cell.isNull))

/-- Check for empty rows (File_Validation.py lines 63-67): build a cleaned
copy (replace whitespace-only cells by NA, drop all-NA rows) and fail when
the cleaned copy is shorter; the original table is returned untouched. -/
def check_empty_rows (data : DataFrame) : String × DataFrame :=
  let data_cleaned : DataFrame :=
    { columns := data.columns, rows := dropAllNaRows (data.rows.map (List.map blankToNa)) }
  (if data_cleaned.rows.length < data.rows.length then
    "Uploaded file contains empty rows. ❌"
  else
    "Uploaded file does not contain empty rows. ✅", data)

/-- Delimiter candidates of read_txt_file, in order (File_Validation.py
line 70): tab, comma, single space. -/
def DELIMITERS : List Char := ['\t', ',', ' ']

/-- Loop body of read_txt_file (File_Validation.py lines 71-78): for each
delimiter, seek the stream to 0, parse it, and return the table when its
columns equal ALLOWED_HEADERS; parse failures and mismatching tables fall
through to the next delimiter. -/
def read_txt_aux : List Char → ByteStream → Except String (DataFrame × ByteStream)
  | [], _ => Except.error "Failed to parse the .txt file with common delimiters (tab, comma, space)."
  | d :: ds, s =>
    let rewound : ByteStream := { s with pos := 0 }
    match pdReadCsvFrom d rewound with
    | Except.ok (df, afterRead) =>
      if df.columns = ALLOWED_HEADERS then
        Except.ok (df, afterRead)
      else
        read_txt_aux ds afterRead
    | Except.error _ => read_txt_aux ds rewound

/-- Read a .txt file with possible delimiters (File_Validation.py
lines 70-79). -/
def read_txt_file (file : ByteStream) : Except String (DataFrame × ByteStream) :=
  read_txt_aux DELIMITERS file

/-- A delimiter candidate succeeds for a content when parsing with it
succeeds and yields exactly the allowed headers. -/
def txtCandidateOk (d : Char) (content : String) : Bool :=
  match pdReadCsv d content with
  | Except.ok df => df.columns == ALLOWED_HEADERS
  | Except.error _ => false

/-- Following the spec's words (section 4.1, txt branch): the first candidate
delimiter in the fixed order whose resulting column names equal the required
schema is used to parse the full content; if none matches the parse fails
with the error naming the attempted delimiters. -/
def read_txt_spec (content : String) : Except String DataFrame :=
  match DELIMITERS.find? (fun d => txtCandidateOk d content) with
  | some d => pdReadCsv d content
  | none => Except.error "Failed to parse the .txt file with common delimiters (tab, comma, space)."

/-- An uploaded file: its declared file name and the contents of its stream. -/
structure UploadFile where
  filename : String
  content : String
deriving DecidableEq

/-- A row inserted into the ValidationResults table
(insert_validation_result, File_Validation.py lines 82-88). -/
structure Record where
  file_name : String
  validation_rule : String
  result : String
deriving DecidableEq

/-- The JSON body returned by process_files: an object with an "error" key
or one with a "message" key. -/
inductive Response where
  | jsonError : String → Response
  | jsonMessage : String → Response
deriving DecidableEq

/-- One run of the pipeline: the records inserted, in insertion order, and
the response returned. -/
structure RunResult where
  records : List Record
  response : Response
deriving DecidableEq

/-- The exceptions the run body can raise: a ValueError (pandas parse errors
and the read_txt_file failure) caught at File_Validation.py line 156, or the
unbound-local error on the undefined variable data when the extension is
neither csv nor txt, caught at line 158. -/
inductive RunError where
  | valueError : String → RunError
  | nameError : String → RunError
deriving DecidableEq

/-- The except clauses of process_files (File_Validation.py lines 156-159):
a ValueError message is echoed with a trailing cross mark; any other
exception is wrapped in the generic unexpected-error message. -/
def errorResponse : RunError → Response
  | RunError.valueError m => Response.jsonError (m ++ " ❌")
  | RunError.nameError m => Response.jsonError ("An unexpected error occurred: " ++ m ++ " ❌")

/-- The diagnostic of the unbound local variable data
(File_Validation.py lines 113-119: no branch assigns data when the extension
is neither csv nor txt, so line 119 raises). -/
def unboundDataMessage : String :=
  "cannot access local variable 'data' where it is not associated with a value"

/-- The parse step of process_files (File_Validation.py lines 112-116): csv
streams are read with the comma delimiter, txt streams through
read_txt_file; any other extension leaves data unassigned, which surfaces as
a NameError at the first later use. -/
def parseUpload (file_extension : String) (s : ByteStream) : Except RunError (DataFrame × ByteStream) :=
  if file_extension = "csv" then
    match pdReadCsvFrom ',' s with
    | Except.ok r => Except.ok r
    | Except.error m => Except.error (RunError.valueError m)
  else if file_extension = "txt" then
    match read_txt_file s with
    | Except.ok r => Except.ok r
    | Except.error m => Except.error (RunError.valueError m)
  else
    Except.error (RunError.nameError unboundDataMessage)

/-- A result string marks a failure when it contains the cross mark
(the Python membership test at File_Validation.py line 134 with a
one-character needle). -/
def hasFailureMark (result : String) : Bool :=
  result.data.contains '❌'

/-- The rejection body of File_Validation.py lines 135-140: the failing
results, each wrapped in a list item. -/
def fileRejectedHtml (failing : List String) : String :=
  "\n            <h3 style=\"color: red;\">File Rejected:</h3>\n            <ul>\n                "
    ++ String.join (failing.map (fun r => "<li>" ++ r ++ "</li>"))
    ++ "\n            </ul>\n            "

/-- The acceptance body of File_Validation.py lines 148-153: every result,
each wrapped in a list item. -/
def validationResultsHtml (results : List String) : String :=
  "\n        <h3 style=\"color: #4CAF50;\">File Validation Results:</h3>\n        <ul>\n            "
    ++ String.join (results.map (fun r => "<li>" ++ r ++ "</li>"))
    ++ "\n        </ul>\n        "

/-- The extension-mismatch message of File_Validation.py line 96. -/
def mismatchMessage (file_type : String) : String :=
  "File type mismatch. Expected " ++ file_type ++ " file. ❌"

/-- The pipeline orchestrator (File_Validation.py lines 90-159).  The
declared type is compared against the lowercased actual extension; on
mismatch the single File Type verdict is recorded and returned.  Otherwise
File Name and File Size run and are recorded, the stream is parsed according
to the extension, the three table rules run and are recorded, and the run is
rejected with the failing results or accepted with every result re-recorded
under the Validation tag.  Exceptions map through errorResponse. -/
def process_files (file_type : String) (report_file : UploadFile) : RunResult :=
  let file_extension := strLower ((splitext report_file.filename).2.drop 1)
  if file_extension ≠ file_type then
    let validation_message := mismatchMessage file_type
    { records := [{ file_name := report_file.filename, validation_rule := "File Type",
                    result := validation_message }],
      response := Response.jsonError validation_message }
  else
    let file_name_validation := validate_file_name report_file.filename
    let stream0 : ByteStream := { content := report_file.content, pos := 0 }
    let sized := validate_file_size stream0
    let file_size_validation := sized.1
    let metaRecords : List Record :=
      [{ file_name := report_file.filename, validation_rule := "File Name",
         result := file_name_validation },
       { file_name := report_file.filename, validation_rule := "File Size",
         result := file_size_validation }]
    match parseUpload file_extension sized.2 with
    | Except.error e => { records := metaRecords, response := errorResponse e }
    | Except.ok (data0, _) =>
      let headed := validate_headers data0
      let headers_validation := headed.1
      let nulled := check_null_values headed.2
      let null_values_check := nulled.1
      let rowed := check_empty_rows nulled.2
      let empty_rows_check := rowed.1
      let validation_results :=
        [file_name_validation, file_size_validation, headers_validation,
         null_values_check, empty_rows_check]
      let allRecords : List Record := metaRecords ++
        [{ file_name := report_file.filename, validation_rule := "Headers",
           result := headers_validation },
         { file_name := report_file.filename, validation_rule := "Null Values",
           result := null_values_check },
         { file_name := report_file.filename, validation_rule := "Empty Rows",
           result := empty_rows_check }]
      if validation_results.any hasFailureMark then
        { records := allRecords,
          response := Response.jsonError (fileRejectedHtml (validation_results.filter hasFailureMark)) }
      else
        { records := allRecords ++ validation_results.map (fun r =>
            { file_name := report_file.filename, validation_rule := "Validation", result := r }),
          response := Response.jsonMessage (validationResultsHtml validation_results) }

/-! ## Helper lemmas -/

/-- The size comparison the program performs over the rationals is the
inclusive 10240-byte bound. -/
theorem size_kb_le_iff (n : Nat) : ((n : ℚ) / 1024 ≤ 10) ↔ (n ≤ 10240) := by
  rw [div_le_iff₀ (by norm_num : (0:ℚ) < 1024)]
  constructor
  · intro h
    have h2 : (n : ℚ) ≤ 10240 := by linarith
    exact_mod_cast h2
  · intro h
    have h2 : (n : ℚ) ≤ 10240 := by exact_mod_cast h
    linarith

/-- Explicit form of the size verdict. -/
theorem validate_file_size_fst (s : ByteStream) :
    (validate_file_size s).1 =
      if s.content.length ≤ 10240 then "File size is valid. ✅"
      else "File size must be under 10 KB. ❌" := by
  simp only [validate_file_size]
  split
  case isTrue hc => rw [if_pos ((size_kb_le_iff s.content.length).mp hc)]
  case isFalse hc => rw [if_neg (fun hn => hc ((size_kb_le_iff s.content.length).mpr hn))]

/-- The size check always hands back the same contents rewound to the
start. -/
theorem validate_file_size_snd (s : ByteStream) :
    (validate_file_size s).2 = { content := s.content, pos := 0 } := by
  simp only [validate_file_size]
  split <;> rfl

/-- The header rule hands the table back unchanged. -/
theorem validate_headers_snd (data : DataFrame) : (validate_headers data).2 = data := rfl

/-- The null rule hands the table back unchanged. -/
theorem check_null_values_snd (data : DataFrame) : (check_null_values data).2 = data := rfl

/-- The empty-row rule hands the table back unchanged: the cleaned table is
a separate value used only for its length. -/
theorem check_empty_rows_snd (data : DataFrame) : (check_empty_rows data).2 = data := rfl

/-- ASCII lowercasing is idempotent on characters. -/
theorem toLower_toLower (c : Char) : c.toLower.toLower = c.toLower := by
  have hv : ∀ n : Nat, 65 ≤ n → n ≤ 90 → (Char.ofNat (n + 32)).toNat = n + 32 := by
    intro n h1 h2
    interval_cases n <;> decide
  simp only [Char.toLower]
  by_cases h : c.toNat ≥ 65 ∧ c.toNat ≤ 90
  · rw [if_pos h, hv c.toNat h.1 h.2, if_neg (by omega : ¬(c.toNat + 32 ≥ 65 ∧ c.toNat + 32 ≤ 90))]
  · rw [if_neg h, if_neg h]

/-- ASCII lowercasing is idempotent on strings. -/
theorem strLower_idem (s : String) : strLower (strLower s) = strLower s := by
  simp only [strLower, List.map_map]
  congr 1
  exact List.map_congr_left (fun c _ => toLower_toLower c)

/-- The pass form of the size verdict under the inclusive bound. -/
theorem validate_file_size_pass (s : ByteStream) (h : s.content.length ≤ 10240) :
    (validate_file_size s).1 = "File size is valid. ✅" := by
  rw [validate_file_size_fst, if_pos h]

/-- Evaluation form of process_files with the size comparison carried out
over the naturals, so that concrete runs reduce in the kernel. -/
theorem process_files_run (file_type : String) (f : UploadFile) :
    process_files file_type f =
      (if strLower ((splitext f.filename).2.drop 1) ≠ file_type then
        { records := [{ file_name := f.filename, validation_rule := "File Type",
                        result := mismatchMessage file_type }],
          response := Response.jsonError (mismatchMessage file_type) }
      else
        let file_name_validation := validate_file_name f.filename
        let file_size_validation :=
          if f.content.length ≤ 10240 then "File size is valid. ✅"
          else "File size must be under 10 KB. ❌"
        let metaRecords : List Record :=
          [{ file_name := f.filename, validation_rule := "File Name", result := file_name_validation },
           { file_name := f.filename, validation_rule := "File Size", result := file_size_validation }]
        match parseUpload (strLower ((splitext f.filename).2.drop 1)) { content := f.content, pos := 0 } with
        | Except.error e => { records := metaRecords, response := errorResponse e }
        | Except.ok (data0, _) =>
          let headers_validation := (validate_headers data0).1
          let null_values_check := (check_null_values data0).1
          let empty_rows_check := (check_empty_rows data0).1
          let validation_results :=
            [file_name_validation, file_size_validation, headers_validation,
             null_values_check, empty_rows_check]
          let allRecords : List Record := metaRecords ++
            [{ file_name := f.filename, validation_rule := "Headers", result := headers_validation },
             { file_name := f.filename, validation_rule := "Null Values", result := null_values_check },
             { file_name := f.filename, validation_rule := "Empty Rows", result := empty_rows_check }]
          if validation_results.any hasFailureMark then
            { records := allRecords,
              response := Response.jsonError
                (fileRejectedHtml (validation_results.filter hasFailureMark)) }
          else
            { records := allRecords ++ validation_results.map (fun r =>
                { file_name := f.filename, validation_rule := "Validation", result := r }),
              response := Response.jsonMessage (validationResultsHtml validation_results) }) := by
  simp only [process_files, validate_file_size_snd, validate_file_size_fst,
    validate_headers_snd, check_null_values_snd]

/-! ## Claim theorems -/

/-- C1: for every declared type and file whose actual extension differs from
the declared type case-insensitively, the pipeline records exactly one
verdict (the File Type / Extension Match failure), returns a rejected
outcome carrying only that verdict, and no other rule executes. -/
theorem c1_extension_mismatch_short_circuits (file_type : String) (f : UploadFile)
    (h : strLower ((splitext f.filename).2.drop 1) ≠ strLower file_type) :
    process_files file_type f =
      { records := [{ file_name := f.filename, validation_rule := "File Type",
                      result := mismatchMessage file_type }],
        response := Response.jsonError (mismatchMessage file_type) } := by
  have hne : strLower ((splitext f.filename).2.drop 1) ≠ file_type := by
    intro he
    apply h
    calc strLower ((splitext f.filename).2.drop 1)
        = strLower (strLower ((splitext f.filename).2.drop 1)) := (strLower_idem _).symm
      _ = strLower file_type := by rw [he]
  simp only [process_files]
  rw [if_pos hne]

/-- Witness for C1: declared type csv against an actual txt extension. -/
theorem c1_witness :
    process_files "csv" { filename := "a.txt", content := "" } =
      { records := [{ file_name := "a.txt", validation_rule := "File Type",
                      result := mismatchMessage "csv" }],
        response := Response.jsonError (mismatchMessage "csv") } :=
  c1_extension_mismatch_short_circuits "csv" { filename := "a.txt", content := "" } (by decide)

/-- C7: the File Size verdict passes exactly when the byte length is at most
10240; a file of exactly 10240 bytes passes and one of 10241 bytes fails. -/
theorem c7_file_size_boundary :
    (∀ s : ByteStream,
      ((validate_file_size s).1 = "File size is valid. ✅" ↔ s.content.length ≤ 10240)) ∧
    (validate_file_size { content := String.mk (List.replicate 10240 'a'), pos := 0 }).1 =
      "File size is valid. ✅" ∧
    (validate_file_size { content := String.mk (List.replicate 10241 'a'), pos := 0 }).1 =
      "File size must be under 10 KB. ❌" := by
  have hlen : ∀ n : Nat, (String.mk (List.replicate n 'a')).length = n := by
    intro n
    simp [String.length]
  have key : ∀ s : ByteStream,
      (validate_file_size s).1 = "File size is valid. ✅" ↔ s.content.length ≤ 10240 := by
    intro s
    rw [validate_file_size_fst]
    constructor
    · intro h
      by_contra hn
      rw [if_neg hn] at h
      exact absurd h (by decide)
    · intro h
      rw [if_pos h]
  refine ⟨key, ?_, ?_⟩
  · rw [validate_file_size_fst, if_pos (by rw [hlen])]
  · rw [validate_file_size_fst, if_neg (by rw [hlen]; omega)]

/-- C9: validate_file_size leaves the stream contents unchanged and the read
position at 0 on return, so the parse step that follows it reads the full
stream from the beginning. -/
theorem c9_file_size_stream_frame (s : ByteStream) :
    (validate_file_size s).2.content = s.content ∧ (validate_file_size s).2.pos = 0 := by
  rw [validate_file_size_snd]
  exact ⟨rfl, rfl⟩

/-- C10: the three table rules hand the table back unchanged (the empty-row
rule counts on a cleaned copy), so running them in any order or repeatedly
yields the same verdicts on the same table. -/
theorem c10_table_rules_frame (data : DataFrame) :
    (validate_headers data).2 = data ∧
    (check_null_values data).2 = data ∧
    (check_empty_rows data).2 = data ∧
    (check_empty_rows (check_null_values (validate_headers data).2).2).1 =
      (check_empty_rows data).1 ∧
    (check_null_values (check_empty_rows data).2).1 = (check_null_values data).1 ∧
    (validate_headers (check_empty_rows (check_empty_rows data).2).2).1 =
      (validate_headers data).1 :=
  ⟨rfl, rfl, rfl, rfl, rfl, rfl⟩

/-- Counterexample to C5: declared type pdf with file a.pdf (the actual
extension equals the unsupported declared type).  The run records File Name
and File Size, never records a File Type verdict, and ends in the generic
unexpected-error response rather than the extension-mismatch rejection. -/
theorem c5_counterexample :
    (process_files "pdf" { filename := "a.pdf", content := "" }).records.all
      (fun rec => rec.validation_rule != "File Type") = true ∧
    (process_files "pdf" { filename := "a.pdf", content := "" }).response =
      Response.jsonError ("An unexpected error occurred: " ++ unboundDataMessage ++ " ❌") ∧
    (process_files "pdf" { filename := "a.pdf", content := "" }).response ≠
      Response.jsonError (mismatchMessage "pdf") := by
  rw [process_files_run]
  decide

/-- C5 (amended): for a declared type outside the supported enum, a file
whose lowercased extension differs from it gets the Extension-Match style
rejection with the single File Type verdict; but when the lowercased
extension equals the unsupported declared type, the run records File Name
and File Size and ends in the generic unexpected-error outcome instead. -/
theorem c5_amended_unsupported_declared_type (file_type : String) (f : UploadFile)
    (h1 : file_type ≠ "csv") (h2 : file_type ≠ "txt") :
    (strLower ((splitext f.filename).2.drop 1) ≠ file_type →
      process_files file_type f =
        { records := [{ file_name := f.filename, validation_rule := "File Type",
                        result := mismatchMessage file_type }],
          response := Response.jsonError (mismatchMessage file_type) }) ∧
    (strLower ((splitext f.filename).2.drop 1) = file_type →
      process_files file_type f =
        { records := [{ file_name := f.filename, validation_rule := "File Name",
                        result := validate_file_name f.filename },
                      { file_name := f.filename, validation_rule := "File Size",
                        result := (validate_file_size { content := f.content, pos := 0 }).1 }],
          response := Response.jsonError
            ("An unexpected error occurred: " ++ unboundDataMessage ++ " ❌") }) := by
  constructor
  · intro hne
    simp only [process_files]
    rw [if_pos hne]
  · intro hext
    have hs2 : (validate_file_size { content := f.content, pos := 0 }).2 =
        { content := f.content, pos := 0 } := by
      rw [validate_file_size_snd]
    have hp : parseUpload (strLower ((splitext f.filename).2.drop 1))
        { content := f.content, pos := 0 } =
        Except.error (RunError.nameError unboundDataMessage) := by
      rw [hext]
      simp only [parseUpload, if_neg h1, if_neg h2]
    simp only [process_files]
    rw [if_neg (fun hc => hc hext), hs2, hp]
    rfl

/-- Witness for C5 (amended): declared type pdf, file a.pdf, empty stream. -/
theorem c5_witness :
    process_files "pdf" { filename := "a.pdf", content := "" } =
      { records := [{ file_name := "a.pdf", validation_rule := "File Name",
                      result := validate_file_name "a.pdf" },
                    { file_name := "a.pdf", validation_rule := "File Size",
                      result := (validate_file_size { content := "", pos := 0 }).1 }],
        response := Response.jsonError
          ("An unexpected error occurred: " ++ unboundDataMessage ++ " ❌") } :=
  (c5_amended_unsupported_declared_type "pdf" { filename := "a.pdf", content := "" }
    (by decide) (by decide)).2 (by decide)

/-- Every rejection body starts with a newline, whatever the failing
results are. -/
theorem fileRejectedHtml_head (l : List String) :
    (fileRejectedHtml l).data.head? = some '\n' := by
  simp only [fileRejectedHtml, String.data_append, List.head?_append]
  rfl

/-- C6: a txt upload whose parse attempts all fail ends with the parse-error
response (not a rejection, and not the mismatch rejection), the parse
failure is not recorded as a rule verdict, no table rule is recorded, and
the File Name and File Size verdicts already produced remain recorded. -/
theorem c6_txt_parse_failure (f : UploadFile)
    (hext : strLower ((splitext f.filename).2.drop 1) = "txt")
    (hfail : read_txt_file { content := f.content, pos := 0 } =
      Except.error "Failed to parse the .txt file with common delimiters (tab, comma, space).") :
    process_files "txt" f =
      { records := [{ file_name := f.filename, validation_rule := "File Name",
                      result := validate_file_name f.filename },
                    { file_name := f.filename, validation_rule := "File Size",
                      result := (validate_file_size { content := f.content, pos := 0 }).1 }],
        response := Response.jsonError
          "Failed to parse the .txt file with common delimiters (tab, comma, space). ❌" } ∧
    (∀ l : List String,
      (process_files "txt" f).response ≠ Response.jsonError (fileRejectedHtml l)) ∧
    (process_files "txt" f).response ≠ Response.jsonError (mismatchMessage "txt") := by
  have hs2 : (validate_file_size { content := f.content, pos := 0 }).2 =
      { content := f.content, pos := 0 } := by
    rw [validate_file_size_snd]
  have hp : parseUpload (strLower ((splitext f.filename).2.drop 1))
      { content := f.content, pos := 0 } =
      Except.error (RunError.valueError
        "Failed to parse the .txt file with common delimiters (tab, comma, space).") := by
    rw [hext]
    simp only [parseUpload, if_neg (by decide : ¬("txt" = "csv")), if_pos rfl, hfail]
    rfl
  have hrun : process_files "txt" f =
      { records := [{ file_name := f.filename, validation_rule := "File Name",
                      result := validate_file_name f.filename },
                    { file_name := f.filename, validation_rule := "File Size",
                      result := (validate_file_size { content := f.content, pos := 0 }).1 }],
        response := Response.jsonError
          "Failed to parse the .txt file with common delimiters (tab, comma, space). ❌" } := by
    simp only [process_files]
    rw [if_neg (fun hc => hc hext), hs2, hp]
    rfl
  refine ⟨hrun, ?_, ?_⟩
  · intro l hle
    rw [hrun] at hle
    have hle2 : Response.jsonError
        "Failed to parse the .txt file with common delimiters (tab, comma, space). ❌" =
        Response.jsonError (fileRejectedHtml l) := hle
    injection hle2 with hs
    have hhead : (some 'F' : Option Char) = some '\n' := by
      calc (some 'F' : Option Char)
          = ("Failed to parse the .txt file with common delimiters (tab, comma, space). ❌".data.head?) := rfl
        _ = (fileRejectedHtml l).data.head? := by rw [hs]
        _ = some '\n' := fileRejectedHtml_head l
    exact absurd hhead (by decide)
  · rw [hrun]
    exact (by decide : Response.jsonError
      "Failed to parse the .txt file with common delimiters (tab, comma, space). ❌" ≠
      Response.jsonError (mismatchMessage "txt"))

/-- Witness for C6: a txt file none of whose delimiter candidates yields the
required headers. -/
theorem c6_witness :
    process_files "txt" { filename := "a.txt", content := "hello\nworld\n" } =
      { records := [{ file_name := "a.txt", validation_rule := "File Name",
                      result := validate_file_name "a.txt" },
                    { file_name := "a.txt", validation_rule := "File Size",
                      result := (validate_file_size { content := "hello\nworld\n", pos := 0 }).1 }],
        response := Response.jsonError
          "Failed to parse the .txt file with common delimiters (tab, comma, space). ❌" } :=
  (c6_txt_parse_failure { filename := "a.txt", content := "hello\nworld\n" }
    (by decide) (by decide)).1

/-- C2: a fully valid upload is accepted and exactly ten records are
persisted: the five passing verdicts once under their own rule names in
order, then once more each under the generic Validation tag. -/
theorem c2_accepted_ten_records (file_type : String) (f : UploadFile)
    (data : DataFrame) (s' : ByteStream)
    (hext : strLower ((splitext f.filename).2.drop 1) = file_type)
    (hparse : parseUpload file_type { content := f.content, pos := 0 } = Except.ok (data, s'))
    (hname : validate_file_name f.filename = "File name is valid. ✅")
    (hsize : f.content.length ≤ 10240)
    (hhead : (validate_headers data).1 = "Headers matched. ✅")
    (hnull : (check_null_values data).1 = "Uploaded file does not contain null values. ✅")
    (hrows : (check_empty_rows data).1 = "Uploaded file does not contain empty rows. ✅") :
    process_files file_type f =
      { records := [
          { file_name := f.filename, validation_rule := "File Name",
            result := "File name is valid. ✅" },
          { file_name := f.filename, validation_rule := "File Size",
            result := "File size is valid. ✅" },
          { file_name := f.filename, validation_rule := "Headers",
            result := "Headers matched. ✅" },
          { file_name := f.filename, validation_rule := "Null Values",
            result := "Uploaded file does not contain null values. ✅" },
          { file_name := f.filename, validation_rule := "Empty Rows",
            result := "Uploaded file does not contain empty rows. ✅" },
          { file_name := f.filename, validation_rule := "Validation",
            result := "File name is valid. ✅" },
          { file_name := f.filename, validation_rule := "Validation",
            result := "File size is valid. ✅" },
          { file_name := f.filename, validation_rule := "Validation",
            result := "Headers matched. ✅" },
          { file_name := f.filename, validation_rule := "Validation",
            result := "Uploaded file does not contain null values. ✅" },
          { file_name := f.filename, validation_rule := "Validation",
            result := "Uploaded file does not contain empty rows. ✅" }],
        response := Response.jsonMessage (validationResultsHtml
          ["File name is valid. ✅", "File size is valid. ✅", "Headers matched. ✅",
           "Uploaded file does not contain null values. ✅",
           "Uploaded file does not contain empty rows. ✅"]) } := by
  have hs2 : (validate_file_size { content := f.content, pos := 0 }).2 =
      { content := f.content, pos := 0 } := by
    rw [validate_file_size_snd]
  have hsz : (validate_file_size { content := f.content, pos := 0 }).1 =
      "File size is valid. ✅" :=
    validate_file_size_pass _ hsize
  simp only [process_files]
  rw [if_neg (fun hc => hc hext), hs2, hext, hparse]
  simp only [validate_headers_snd, check_null_values_snd]
  rw [hname, hsz, hhead, hnull, hrows]
  rw [if_neg (by decide)]
  rfl

/-- Witness for C2: Report1.csv declared as csv with a fully valid body. -/
theorem c2_witness :
    process_files "csv"
      { filename := "Report1.csv",
        content := "CUSTOMER,ADDRESS,PRODUCT,PRODUCT_TYPE,PRICE\n1,2,3,4,5\n" } =
      { records := [
          { file_name := "Report1.csv", validation_rule := "File Name",
            result := "File name is valid. ✅" },
          { file_name := "Report1.csv", validation_rule := "File Size",
            result := "File size is valid. ✅" },
          { file_name := "Report1.csv", validation_rule := "Headers",
            result := "Headers matched. ✅" },
          { file_name := "Report1.csv", validation_rule := "Null Values",
            result := "Uploaded file does not contain null values. ✅" },
          { file_name := "Report1.csv", validation_rule := "Empty Rows",
            result := "Uploaded file does not contain empty rows. ✅" },
          { file_name := "Report1.csv", validation_rule := "Validation",
            result := "File name is valid. ✅" },
          { file_name := "Report1.csv", validation_rule := "Validation",
            result := "File size is valid. ✅" },
          { file_name := "Report1.csv", validation_rule := "Validation",
            result := "Headers matched. ✅" },
          { file_name := "Report1.csv", validation_rule := "Validation",
            result := "Uploaded file does not contain null values. ✅" },
          { file_name := "Report1.csv", validation_rule := "Validation",
            result := "Uploaded file does not contain empty rows. ✅" }],
        response := Response.jsonMessage (validationResultsHtml
          ["File name is valid. ✅", "File size is valid. ✅", "Headers matched. ✅",
           "Uploaded file does not contain null values. ✅",
           "Uploaded file does not contain empty rows. ✅"]) } :=
  c2_accepted_ten_records "csv"
    { filename := "Report1.csv",
      content := "CUSTOMER,ADDRESS,PRODUCT,PRODUCT_TYPE,PRICE\n1,2,3,4,5\n" }
    { columns := ["CUSTOMER", "ADDRESS", "PRODUCT", "PRODUCT_TYPE", "PRICE"],
      rows := [[Cell.str "1", Cell.str "2", Cell.str "3", Cell.str "4", Cell.str "5"]] }
    { content := "CUSTOMER,ADDRESS,PRODUCT,PRODUCT_TYPE,PRICE\n1,2,3,4,5\n", pos := 54 }
    (by decide) (by decide) (by decide) (by decide) (by decide) (by decide) (by decide)

/-- C4: when Extension Match passes and the parse succeeds, Headers, Null
Values and Empty Rows all run, in that order, and all three verdicts are
recorded after File Name and File Size regardless of earlier failures; when
anything failed, the rejected response surfaces exactly the failing verdict
messages. -/
theorem c4_table_rules_always_run (file_type : String) (f : UploadFile)
    (data : DataFrame) (s' : ByteStream) (fsv : String)
    (hext : strLower ((splitext f.filename).2.drop 1) = file_type)
    (hparse : parseUpload file_type { content := f.content, pos := 0 } = Except.ok (data, s'))
    (hsize : (validate_file_size { content := f.content, pos := 0 }).1 = fsv) :
    (process_files file_type f).records.take 5 =
      [{ file_name := f.filename, validation_rule := "File Name",
         result := validate_file_name f.filename },
       { file_name := f.filename, validation_rule := "File Size", result := fsv },
       { file_name := f.filename, validation_rule := "Headers",
         result := (validate_headers data).1 },
       { file_name := f.filename, validation_rule := "Null Values",
         result := (check_null_values data).1 },
       { file_name := f.filename, validation_rule := "Empty Rows",
         result := (check_empty_rows data).1 }] ∧
    ([validate_file_name f.filename, fsv, (validate_headers data).1,
      (check_null_values data).1, (check_empty_rows data).1].any hasFailureMark = true →
      (process_files file_type f).response = Response.jsonError (fileRejectedHtml
        ([validate_file_name f.filename, fsv, (validate_headers data).1,
          (check_null_values data).1, (check_empty_rows data).1].filter hasFailureMark))) := by
  have hs2 : (validate_file_size { content := f.content, pos := 0 }).2 =
      { content := f.content, pos := 0 } := by
    rw [validate_file_size_snd]
  constructor
  · simp only [process_files]
    rw [if_neg (fun hc => hc hext), hs2, hext, hparse]
    simp only [validate_headers_snd, check_null_values_snd]
    rw [hsize]
    split
    · rfl
    · rfl
  · intro hany
    simp only [process_files]
    rw [if_neg (fun hc => hc hext), hs2, hext, hparse]
    simp only [validate_headers_snd, check_null_values_snd]
    rw [hsize, if_pos hany]

/-- Witness for C4 (scenario B): bad@name.csv declared as csv and otherwise
valid; the File Name failure is surfaced, yet all five verdicts ran and were
recorded. -/
theorem c4_witness :
    (process_files "csv"
      { filename := "bad@name.csv",
        content := "CUSTOMER,ADDRESS,PRODUCT,PRODUCT_TYPE,PRICE\n1,2,3,4,5\n" }).records.take 5 =
      [{ file_name := "bad@name.csv", validation_rule := "File Name",
         result := validate_file_name "bad@name.csv" },
       { file_name := "bad@name.csv", validation_rule := "File Size",
         result := "File size is valid. ✅" },
       { file_name := "bad@name.csv", validation_rule := "Headers",
         result := (validate_headers
           { columns := ["CUSTOMER", "ADDRESS", "PRODUCT", "PRODUCT_TYPE", "PRICE"],
             rows := [[Cell.str "1", Cell.str "2", Cell.str "3", Cell.str "4", Cell.str "5"]] }).1 },
       { file_name := "bad@name.csv", validation_rule := "Null Values",
         result := (check_null_values
           { columns := ["CUSTOMER", "ADDRESS", "PRODUCT", "PRODUCT_TYPE", "PRICE"],
             rows := [[Cell.str "1", Cell.str "2", Cell.str "3", Cell.str "4", Cell.str "5"]] }).1 },
       { file_name := "bad@name.csv", validation_rule := "Empty Rows",
         result := (check_empty_rows
           { columns := ["CUSTOMER", "ADDRESS", "PRODUCT", "PRODUCT_TYPE", "PRICE"],
             rows := [[Cell.str "1", Cell.str "2", Cell.str "3", Cell.str "4", Cell.str "5"]] }).1 }] ∧
    (process_files "csv"
      { filename := "bad@name.csv",
        content := "CUSTOMER,ADDRESS,PRODUCT,PRODUCT_TYPE,PRICE\n1,2,3,4,5\n" }).response =
      Response.jsonError (fileRejectedHtml
        ([validate_file_name "bad@name.csv", "File size is valid. ✅",
          (validate_headers
            { columns := ["CUSTOMER", "ADDRESS", "PRODUCT", "PRODUCT_TYPE", "PRICE"],
              rows := [[Cell.str "1", Cell.str "2", Cell.str "3", Cell.str "4", Cell.str "5"]] }).1,
          (check_null_values
            { columns := ["CUSTOMER", "ADDRESS", "PRODUCT", "PRODUCT_TYPE", "PRICE"],
              rows := [[Cell.str "1", Cell.str "2", Cell.str "3", Cell.str "4", Cell.str "5"]] }).1,
          (check_empty_rows
            { columns := ["CUSTOMER", "ADDRESS", "PRODUCT", "PRODUCT_TYPE", "PRICE"],
              rows := [[Cell.str "1", Cell.str "2", Cell.str "3", Cell.str "4", Cell.str "5"]] }).1].filter
          hasFailureMark)) :=
  ⟨(c4_table_rules_always_run "csv"
      { filename := "bad@name.csv",
        content := "CUSTOMER,ADDRESS,PRODUCT,PRODUCT_TYPE,PRICE\n1,2,3,4,5\n" }
      { columns := ["CUSTOMER", "ADDRESS", "PRODUCT", "PRODUCT_TYPE", "PRICE"],
        rows := [[Cell.str "1", Cell.str "2", Cell.str "3", Cell.str "4", Cell.str "5"]] }
      { content := "CUSTOMER,ADDRESS,PRODUCT,PRODUCT_TYPE,PRICE\n1,2,3,4,5\n", pos := 54 }
      "File size is valid. ✅"
      (by decide) (by decide) (validate_file_size_pass _ (by decide))).1,
   (c4_table_rules_always_run "csv"
      { filename := "bad@name.csv",
        content := "CUSTOMER,ADDRESS,PRODUCT,PRODUCT_TYPE,PRICE\n1,2,3,4,5\n" }
      { columns := ["CUSTOMER", "ADDRESS", "PRODUCT", "PRODUCT_TYPE", "PRICE"],
        rows := [[Cell.str "1", Cell.str "2", Cell.str "3", Cell.str "4", Cell.str "5"]] }
      { content := "CUSTOMER,ADDRESS,PRODUCT,PRODUCT_TYPE,PRICE\n1,2,3,4,5\n", pos := 54 }
      "File size is valid. ✅"
      (by decide) (by decide) (validate_file_size_pass _ (by decide))).2 (by decide)⟩

/-- The loop of read_txt_file computes the first-matching-delimiter parse of
the full stream contents, whatever the starting read position was. -/
theorem read_txt_aux_spec (ds : List Char) (c : String) : ∀ p : Nat,
    (read_txt_aux ds { content := c, pos := p }).map Prod.fst =
      (match ds.find? (fun d => txtCandidateOk d c) with
       | some d => pdReadCsv d c
       | none => Except.error
           "Failed to parse the .txt file with common delimiters (tab, comma, space).") := by
  induction ds with
  | nil =>
    intro p
    rfl
  | cons d ds ih =>
    intro p
    have hfrom : pdReadCsvFrom d { content := c, pos := 0 } =
        (match pdReadCsv d c with
         | Except.ok df => Except.ok (df, ({ content := c, pos := c.length } : ByteStream))
         | Except.error e => Except.error e) := by
      show (match pdReadCsv d (String.mk (c.data.drop 0)) with
            | Except.ok df => Except.ok (df, ({ content := c, pos := c.length } : ByteStream))
            | Except.error e => Except.error e) = _
      rw [List.drop_zero]
    cases hd : pdReadCsv d c with
    | error e =>
      have hcand : txtCandidateOk d c = false := by
        simp [txtCandidateOk, hd]
      have hfind : List.find? (fun x => txtCandidateOk x c) (d :: ds) =
          List.find? (fun x => txtCandidateOk x c) ds := by
        rw [List.find?_cons_of_neg]
        simp [hcand]
      simp only [read_txt_aux, hfrom, hd, hfind]
      exact ih 0
    | ok df =>
      by_cases hcol : df.columns = ALLOWED_HEADERS
      · have hcand : txtCandidateOk d c = true := by
          simp [txtCandidateOk, hd, hcol]
        have hfind : List.find? (fun x => txtCandidateOk x c) (d :: ds) = some d := by
          rw [List.find?_cons_of_pos]
          simp [hcand]
        simp only [read_txt_aux, hfrom, hd, hfind]
        rw [if_pos hcol]
        rfl
      · have hcand : txtCandidateOk d c = false := by
          simp [txtCandidateOk, hd, hcol]
        have hfind : List.find? (fun x => txtCandidateOk x c) (d :: ds) =
            List.find? (fun x => txtCandidateOk x c) ds := by
          rw [List.find?_cons_of_neg]
          simp [hcand]
        simp only [read_txt_aux, hfrom, hd, hfind]
        rw [if_neg hcol]
        exact ih c.length

/-- C3: for a txt stream, parsing tries tab, comma and single space in that
fixed order, rewinding to position 0 before each attempt (the result depends
only on the full contents, never on the incoming position); it returns the
table of the first delimiter whose column names equal the required schema
exactly, and fails with the error naming the attempted delimiters when no
candidate matches, so an ambiguous file resolves to the earliest
candidate. -/
theorem c3_txt_delimiter_order (file : ByteStream) :
    (read_txt_file file).map Prod.fst = read_txt_spec file.content := by
  obtain ⟨c, p⟩ := file
  exact read_txt_aux_spec DELIMITERS c p

/-- The dollar anchor holds at an offset exactly at end of string, or just
before a final newline. -/
theorem dollarAt_iff (cs : List Char) (k : Nat) :
    dollarAt cs k = true ↔
      (k = cs.length ∨ (k + 1 = cs.length ∧ cs.getLast? = some '\n')) := by
  simp [dollarAt]

/-- Characterisation of the modelled regex match: it succeeds exactly on a
nonempty all-class string, or on a nonempty all-class string followed by one
trailing newline. -/
theorem reMatchNamePattern_iff (cs : List Char) :
    reMatchNamePattern cs = true ↔
      ((cs ≠ [] ∧ ∀ ch ∈ cs, nameCharOk ch = true) ∨
       (∃ s, cs = s ++ ['\n'] ∧ s ≠ [] ∧ ∀ ch ∈ s, nameCharOk ch = true)) := by
  have htw : cs.takeWhile nameCharOk = cs.take ((cs.takeWhile nameCharOk).length) :=
    List.prefix_iff_eq_take.mp ( List.takeWhile_prefix nameCharOk)
  have hple : (cs.takeWhile nameCharOk).length ≤ cs.length :=
    ( List.takeWhile_prefix nameCharOk).length_le
  constructor
  · intro h
    simp only [reMatchNamePattern, List.any_eq_true, List.mem_range] at h
    obtain ⟨k, hkmem, hk⟩ := h
    rw [Bool.and_eq_true, decide_eq_true_eq] at hk
    obtain ⟨hk1, hkd⟩ := hk
    rw [dollarAt_iff] at hkd
    have hkp : k ≤ (cs.takeWhile nameCharOk).length := Nat.lt_succ_iff.mp hkmem
    have htake_ok : ∀ ch ∈ cs.take k, nameCharOk ch = true := by
      intro ch hch
      apply List.mem_takeWhile_imp (l := cs) (p := nameCharOk)
      rw [htw]
      have heq : (cs.take ((cs.takeWhile nameCharOk).length)).take k = cs.take k := by
        rw [List.take_take, Nat.min_eq_left hkp]
      rw [← heq] at hch
      exact List.take_subset k _ hch
    rcases hkd with hlen | ⟨hlen1, hlast⟩
    · left
      have hplen : (cs.takeWhile nameCharOk).length = cs.length := by omega
      have hall : cs.takeWhile nameCharOk = cs :=
        ( List.takeWhile_prefix nameCharOk).eq_of_length hplen
      refine ⟨?_, ?_⟩
      · intro hnil
        have h0 : cs.length = 0 := by rw [hnil]; rfl
        omega
      · intro ch hch
        rw [← hall] at hch
        exact List.mem_takeWhile_imp hch
    · right
      have hlone : (cs.drop k).length = 1 := by
        rw [List.length_drop]
        omega
      obtain ⟨a, ha⟩ := List.length_eq_one.mp hlone
      have hga : cs.getLast? = some a := by
        conv_lhs => rw [← List.take_append_drop k cs]
        rw [ha, List.getLast?_concat]
      have haeq : a = '\n' := by
        rw [hga] at hlast
        exact Option.some_inj.mp hlast
      have hdrop : cs.drop k = ['\n'] := by rw [ha, haeq]
      refine ⟨cs.take k, ?_, ?_, htake_ok⟩
      · conv_lhs => rw [← List.take_append_drop k cs]
        rw [hdrop]
      · intro hnil
        have h0 := congrArg List.length hnil
        rw [List.length_take] at h0
        simp only [List.length_nil] at h0
        omega
  · intro h
    simp only [reMatchNamePattern, List.any_eq_true, List.mem_range]
    rcases h with ⟨hne, hall⟩ | ⟨s, rfl, hsne, hsok⟩
    · refine ⟨cs.length, ?_, ?_⟩
      · have hfull : cs.takeWhile nameCharOk = cs := List.takeWhile_eq_self_iff.mpr hall
        rw [hfull]
        omega
      · rw [Bool.and_eq_true, decide_eq_true_eq]
        refine ⟨?_, ?_⟩
        · cases cs with
          | nil => exact absurd rfl hne
          | cons a l => simp
        · rw [dollarAt_iff]
          left
          rfl
    · refine ⟨s.length, ?_, ?_⟩
      · have htws : (s ++ ['\n']).takeWhile nameCharOk = s := by
          rw [List.takeWhile_append_of_pos hsok]
          have hnl : List.takeWhile nameCharOk ['\n'] = [] := by decide
          rw [hnl, List.append_nil]
        rw [htws]
        omega
      · rw [Bool.and_eq_true, decide_eq_true_eq]
        refine ⟨?_, ?_⟩
        · cases s with
          | nil => exact absurd rfl hsne
          | cons a l => simp
        · rw [dollarAt_iff]
          right
          refine ⟨?_, List.getLast?_concat s⟩
          rw [List.length_append]
          rfl

/-- Counterexample to C8: the file name consisting of abc followed by a
newline has no extension, so its base name contains the control character
newline, which is outside the allowed class — yet the verdict passes,
because the Python dollar anchor also matches just before a trailing
newline. -/
theorem c8_counterexample :
    validate_file_name "abc\n" = "File name is valid. ✅" ∧
    (splitext "abc\n").1 = "abc\n" ∧
    '\n' ∈ (splitext "abc\n").1.data ∧
    nameCharOk '\n' = false :=
  ⟨by decide, by decide, by decide, by decide⟩

/-- C8 (amended): the File Name verdict passes exactly when the base name
(extension stripped) is one or more characters drawn from ASCII letters,
digits and spaces, or is such a string followed by a single trailing
newline; every other base name — punctuation, other non-ASCII or control
characters anywhere, or anything after a trailing newline — fails. -/
theorem c8_amended_file_name_pattern (file_name : String) :
    validate_file_name file_name = "File name is valid. ✅" ↔
      (((splitext file_name).1.data ≠ [] ∧
        ∀ ch ∈ (splitext file_name).1.data, nameCharOk ch = true) ∨
       (∃ s, (splitext file_name).1.data = s ++ ['\n'] ∧ s ≠ [] ∧
        ∀ ch ∈ s, nameCharOk ch = true)) := by
  rw [← reMatchNamePattern_iff]
  by_cases hm : reMatchNamePattern (splitext file_name).1.data = true
  · simp only [validate_file_name, if_pos hm, hm]
    simp
  · simp only [validate_file_name, if_neg hm]
    constructor
    · intro hcon
      exact absurd hcon (by decide)
    · intro hr
      exact absurd hr hm
